import Mathlib

/-!
Verification of the Screenshot AI Studio frontend (src/App.tsx and
src/components) against its natural-language specification.

The repository under verification is the TypeScript/React shell of a Tauri
application.  The stateful core modelled here is:

* handleFilesDropped (App.tsx): the manual-upload path.  For each dropped
  file it skips non-image mime types, creates a Screenshot record with id
  composed from Date.now() and the loop index, status "processing", prepends
  it to the screenshots list, invokes the backend, and finally maps over the
  list replacing every record whose id matches, setting status to
  "completed" or "error" and the analysis field to the summary or the error
  text.

* the screenshot-processed event listener (App.tsx): builds a Screenshot
  from the event payload, defaulting a missing status to "completed" and a
  missing source to "desktop_auto", and prepends it unless an item with the
  same id is already present.

* startServer (components/ServerConfig.tsx): refuses to invoke the backend
  start_server command when the Anthropic API key is absent.

The Rust backend (src-tauri) is not part of the repository; the two
definitions below whose documentation starts with "Modelled from the spec"
stand in for it.
-/

namespace ScreenshotStudio

/-- One dropped file as handleFilesDropped sees it: the name, size and mime
type properties of a File object.  The TypeScript property is called
"type"; that word is reserved in Lean, so the field is named fileType. -/
structure FileInput where
  name : String
  size : Nat
  fileType : String
deriving DecidableEq

/-- The Screenshot record of App.tsx.  status ranges over the string union
"processing" | "completed" | "error"; analysis and source are optional. -/
structure Screenshot where
  id : String
  name : String
  size : Nat
  fileType : String
  timestamp : String
  status : String
  analysis : Option String
  source : Option String
deriving DecidableEq

/-- The ProcessingResponse record returned by the backend command
process_screenshot_direct. -/
structure ProcessingResponse where
  success : Bool
  summary : Option String
  analysis_id : Option String
  timestamp : String
  follow_up_available : Option Bool
  source : Option String
  error : Option String
deriving DecidableEq

/-- The id assigned at ingestion: the template string of Date.now() and the
loop index i, joined by a dash. -/
def mkId (now i : Nat) : String :=
  toString now ++ "-" ++ toString i

/-- The Screenshot literal built for an accepted file in handleFilesDropped:
id from mkId, status "processing", source "frontend_upload", no analysis. -/
def mkScreenshot (f : FileInput) (i now : Nat) (iso : String) : Screenshot :=
  { id := mkId now i
    name := f.name
    size := f.size
    fileType := f.fileType
    timestamp := iso
    status := "processing"
    analysis := none
    source := some "frontend_upload" }

/-- The record update applied to a matching item when handleFilesDropped
finalizes: status from the response's success flag, analysis from its
summary or error field. -/
def finalizeItem (res : ProcessingResponse) (s : Screenshot) : Screenshot :=
  { s with
    status := if res.success then "completed" else "error"
    analysis := if res.success then res.summary else res.error }

/-- The finalization update of handleFilesDropped: map over the list and
replace every record whose id equals the target id. -/
def finalizeScreenshot (targetId : String) (res : ProcessingResponse)
    (l : List Screenshot) : List Screenshot :=
  l.map fun s => if s.id = targetId then finalizeItem res s else s

/-- The mime-type guard of handleFilesDropped:
file.type.startsWith("image/"), computed on the underlying character
lists. -/
def isImageFile (f : FileInput) : Bool :=
  "image/".data.isPrefixOf f.fileType.data

/-- One iteration of the handleFilesDropped loop for an accepted file:
prepend the new processing record, then finalize it with the backend
response. -/
def uploadStep (f : FileInput) (i now : Nat) (iso : String)
    (res : ProcessingResponse) (l : List Screenshot) : List Screenshot :=
  finalizeScreenshot (mkId now i) res (mkScreenshot f i now iso :: l)

/-- The whole handleFilesDropped loop.  nowAt, isoAt and resAt supply, per
loop index, the Date.now() value, the ISO timestamp and the backend
response.  Returns the final screenshots list together with the names of
the files handed to the backend, in order. -/
def runUpload (nowAt : Nat → Nat) (isoAt : Nat → String)
    (resAt : Nat → ProcessingResponse) :
    List FileInput → Nat → List Screenshot → List Screenshot × List String
  | [], _, l => (l, [])
  | f :: fs, i, l =>
    if isImageFile f then
      let r := runUpload nowAt isoAt resAt fs (i + 1)
        (uploadStep f i (nowAt i) (isoAt i) (resAt i) l)
      (r.1, f.name :: r.2)
    else
      runUpload nowAt isoAt resAt fs (i + 1) l

/-- The two history-mutating operations of the upload path, as an explicit
operation language: the prepend of a fresh processing record for a dropped
file, and the finalize-by-id map. -/
inductive Op where
  | upload (f : FileInput) (i now : Nat) (iso : String)
  | finalize (targetId : String) (res : ProcessingResponse)

/-- Apply one operation to the screenshots list. -/
def applyOp (o : Op) (l : List Screenshot) : List Screenshot :=
  match o with
  | .upload f i now iso => mkScreenshot f i now iso :: l
  | .finalize targetId res => finalizeScreenshot targetId res l

/-- Apply a sequence of operations, oldest first. -/
def applyOps : List Op → List Screenshot → List Screenshot
  | [], l => l
  | o :: ops, l => applyOps ops (applyOp o l)

/-- The ids of the history, front (most recent) first. -/
def idsOf (l : List Screenshot) : List String :=
  l.map fun s => s.id

/-- The backend responses consumed by a sequence of operations. -/
def resultsOf (ops : List Op) : List ProcessingResponse :=
  ops.filterMap fun o =>
    match o with
    | .upload _ _ _ _ => none
    | .finalize _ res => some res

/-- States that every text in the analysis field is accounted for by a
backend response of the matching kind: a processing record carries no
analysis, a completed record carries the summary of a successful response,
and an error record carries the error text of a failed response. -/
def analysisConsistent (rs : List ProcessingResponse) (s : Screenshot) : Prop :=
  (s.status = "processing" → s.analysis = none) ∧
  (s.status = "completed" →
    ∃ r, r ∈ rs ∧ r.success = true ∧ s.analysis = r.summary) ∧
  (s.status = "error" →
    ∃ r, r ∈ rs ∧ r.success = false ∧ s.analysis = r.error)

/-- The payload of a screenshot-processed event as the listener reads it.
The listener reads the payload untyped, so status, analysis and source may
be absent. -/
structure EventPayload where
  id : String
  name : String
  size : Nat
  fileType : String
  timestamp : String
  status : Option String
  analysis : Option String
  source : Option String
deriving DecidableEq

/-- JavaScript's short-circuit or on an optional string field: an absent or
empty string falls back to the default. -/
def jsOrDefault (o : Option String) (d : String) : String :=
  match o with
  | none => d
  | some s => if s = "" then d else s

/-- The Screenshot the listener builds from a screenshot-processed event
payload: status defaults to "completed", source to "desktop_auto", every
other field is copied. -/
def eventScreenshot (p : EventPayload) : Screenshot :=
  { id := p.id
    name := p.name
    size := p.size
    fileType := p.fileType
    timestamp := p.timestamp
    status := jsOrDefault p.status "completed"
    analysis := p.analysis
    source := some (jsOrDefault p.source "desktop_auto") }

/-- The functional state update of the screenshot-processed listener: if
some item already carries the payload's id the list is returned unchanged,
otherwise the new record is prepended. -/
def handleScreenshotProcessed (p : EventPayload) (l : List Screenshot) :
    List Screenshot :=
  if l.any (fun s => s.id == (eventScreenshot p).id) then l
  else eventScreenshot p :: l

/-- The ServerConfig record of components/ServerConfig.tsx: the three
credentials are optional strings, entered as empty strings when blank. -/
structure ServerConfigInput where
  anthropic_api_key : Option String
  telegram_bot_token : Option String
  telegram_chat_id : Option String
  enable_desktop_detection : Bool
  server_port : Nat
deriving DecidableEq

/-- The ServerInfo record returned by the backend start_server command. -/
structure ServerInfo where
  status : String
  local_ip : String
  port : Nat
  endpoint_url : String
  desktop_detection : Bool
  telegram_configured : Bool
deriving DecidableEq

/-- The component state of ServerConfig.tsx that startServer touches. -/
structure UiState where
  serverInfo : Option ServerInfo
  isLoading : Bool
  showSetup : Bool
deriving DecidableEq

/-- JavaScript truth test negated: !x on an optional string is true exactly
for an absent or empty string. -/
def optStrFalsy (o : Option String) : Bool :=
  match o with
  | none => true
  | some s => s == ""

/-- What one startServer call produced: the component state afterwards, the
backend commands invoked, and the alerts shown. -/
structure StartOutcome where
  state : UiState
  backendCalls : List String
  alerts : List String
deriving DecidableEq

/-- The startServer handler of ServerConfig.tsx.  Missing API key: alert
and return before anything else.  Otherwise invoke start_server and either
record the returned ServerInfo or alert the failure; isLoading is reset in
the finally block. -/
def startServer (config : ServerConfigInput)
    (backendResult : Except String ServerInfo) (st : UiState) : StartOutcome :=
  if optStrFalsy config.anthropic_api_key then
    { state := st
      backendCalls := []
      alerts := ["Anthropic API key is required!"] }
  else
    match backendResult with
    | .ok info =>
      { state := { serverInfo := some info, isLoading := false, showSetup := false }
        backendCalls := ["start_server"]
        alerts := ["Server started successfully: " ++ info.endpoint_url] }
    | .error e =>
      { state := { st with isLoading := false }
        backendCalls := ["start_server"]
        alerts := ["Failed to start server: " ++ e] }

/-- The item produced by the backend pipeline for one image, as far as the
delivery question is concerned: its final status and analysis text. -/
structure PipelineItemResult where
  status : String
  analysis : Option String
deriving DecidableEq

/-- Modelled from the spec: the finalization and notification steps of the
Rust processing pipeline (src-tauri, not in the repository).  Per the spec,
step 4 calls the notification dispatcher best-effort - delivery failure is
logged and does not affect the item - and step 5 finalizes the item as
completed exactly when the analysis step succeeded, carrying the summary,
and as error with the failure detail otherwise.  Returns the finalized item
and the log lines. -/
def pipelineFinalize (analysisResult : Except String String)
    (notifyResult : Except String Unit) : PipelineItemResult × List String :=
  ( { status :=
        match analysisResult with
        | .ok _ => "completed"
        | .error _ => "error"
      analysis :=
        match analysisResult with
        | .ok s => some s
        | .error e => some e }
  , match notifyResult with
    | .ok _ => []
    | .error e => ["notification delivery failed: " ++ e] )

/-- The typed rejection of the ingestion endpoint. -/
inductive SubmitError where
  | validationError (detail : String)
deriving DecidableEq

/-- Modelled from the spec: the payload size validation of the Rust
ingestion endpoint (src-tauri, not in the repository).  Per the spec, a
payload exceeding the configured size limit is rejected with a
ValidationError; a payload at the limit passes. -/
def validatePayloadSize (limit n : Nat) : Except SubmitError Unit :=
  if n ≤ limit then .ok ()
  else .error (.validationError "payload exceeds the configured size limit")

/-- Modelled from the spec: the mime-type validation of the Rust ingestion
endpoint (src-tauri, not in the repository).  Per the spec, a non-image
mime type is rejected with a 4xx-equivalent typed error.  The accepted
mime types are the ones the frontend guard accepts. -/
def validateMimeType (mime : String) : Except SubmitError Unit :=
  if "image/".data.isPrefixOf mime.data then .ok ()
  else .error (.validationError "mime type is not an image type")

/-- An image file fixture for concrete runs. -/
def fileA : FileInput :=
  { name := "a.png", size := 1, fileType := "image/png" }

/-- A second image file fixture. -/
def fileB : FileInput :=
  { name := "b.png", size := 2, fileType := "image/png" }

/-- A successful backend response fixture. -/
def okRes : ProcessingResponse :=
  { success := true
    summary := some "summary text"
    analysis_id := some "an-1"
    timestamp := "t"
    follow_up_available := some true
    source := some "frontend_upload"
    error := none }

/-- A failed backend response fixture. -/
def failRes : ProcessingResponse :=
  { success := false
    summary := none
    analysis_id := none
    timestamp := "t"
    follow_up_available := none
    source := some "frontend_upload"
    error := some "analysis failed" }

/-- History after a first submission of one image file at millisecond 100,
whose processing succeeds. -/
def collisionState1 : List Screenshot :=
  (runUpload (fun _ => 100) (fun _ => "iso1") (fun _ => okRes) [fileA] 0 []).1

/-- History after a second, separate submission of one image file in the
same millisecond 100, whose processing fails. -/
def collisionState2 : List Screenshot :=
  (runUpload (fun _ => 100) (fun _ => "iso2") (fun _ => failRes) [fileB] 0
    collisionState1).1

/-- A non-image file fixture. -/
def fileBad : FileInput :=
  { name := "notes.txt", size := 4, fileType := "text/plain" }

/-- An event payload fixture with absent status and source fields. -/
def eventP : EventPayload :=
  { id := "e1"
    name := "n.png"
    size := 3
    fileType := "image/png"
    timestamp := "t1"
    status := none
    analysis := some "event analysis"
    source := none }

/-- A configuration fixture with the Anthropic API key absent. -/
def cfgNoKey : ServerConfigInput :=
  { anthropic_api_key := none
    telegram_bot_token := some "bot"
    telegram_chat_id := some "chat"
    enable_desktop_detection := false
    server_port := 5001 }

/-- A component-state fixture. -/
def uiIdle : UiState :=
  { serverInfo := none, isLoading := false, showSetup := true }

/-- A concrete upload trace: one accepted file, successfully finalized. -/
def c4ops : List Op :=
  [.upload fileA 0 100 "iso1", .finalize "100-0" okRes]

/-- Finalizing never changes an id. -/
theorem idsOf_finalizeScreenshot (u : String) (res : ProcessingResponse)
    (l : List Screenshot) : idsOf (finalizeScreenshot u res l) = idsOf l := by
  induction l with
  | nil => rfl
  | cons s t ih =>
    by_cases h : s.id = u <;>
      simp [finalizeScreenshot, idsOf, finalizeItem, h] at ih ⊢ <;>
      exact ih

/-- Finalizing never changes the length of the history. -/
theorem length_finalizeScreenshot (u : String) (res : ProcessingResponse)
    (l : List Screenshot) : (finalizeScreenshot u res l).length = l.length := by
  simp [finalizeScreenshot]

/-- One loop iteration for an accepted file grows the history by one. -/
theorem length_uploadStep (f : FileInput) (i now : Nat) (iso : String)
    (res : ProcessingResponse) (l : List Screenshot) :
    (uploadStep f i now iso res l).length = l.length + 1 := by
  simp [uploadStep, length_finalizeScreenshot]

/-- Claim C1 (code bug): the status of an item that has already reached a
terminal state can change again.  After a first one-file submission at
millisecond 100 the sole item, id 100-0, is terminal with status completed;
a second, separate one-file submission in the same millisecond reuses id
100-0, and its failing finalization rewrites the first item's status from
completed to error. -/
theorem terminalStatusRewrittenOnIdCollision :
    (collisionState1.map fun s => (s.id, s.status)) =
      [("100-0", "completed")] ∧
    (collisionState2.map fun s => (s.id, s.status)) =
      [("100-0", "error"), ("100-0", "error")] :=
  ⟨by decide, by decide⟩

/-- Claim C3 (code bug): ids are reused across separate submissions.  Two
one-file submissions in the same millisecond both assign id 100-0, so the
history holds two distinct items with equal ids. -/
theorem idReusedAcrossSubmissions :
    idsOf collisionState2 = ["100-0", "100-0"] ∧
    collisionState2.length = 2 ∧
    ¬ (idsOf collisionState2).Nodup :=
  ⟨by decide, by decide, by decide⟩

/-- Claim C5: with the required Anthropic API key absent or empty,
startServer alerts a validation message and returns before doing anything
else: the backend start_server command is never invoked and the component
state is unchanged. -/
theorem startWithoutKeyFailsFast : ∀ (config : ServerConfigInput)
    (r : Except String ServerInfo) (st : UiState),
    optStrFalsy config.anthropic_api_key = true →
    (startServer config r st).state = st ∧
    (startServer config r st).backendCalls = [] ∧
    (startServer config r st).alerts = ["Anthropic API key is required!"] := by
  intro c r st h
  simp [startServer, h]

/-- Witness for claim C5 at a concrete configuration with no key. -/
theorem startWithoutKeyFailsFast_witness :
    (startServer cfgNoKey (.error "unused") uiIdle).state = uiIdle ∧
    (startServer cfgNoKey (.error "unused") uiIdle).backendCalls = [] ∧
    (startServer cfgNoKey (.error "unused") uiIdle).alerts =
      ["Anthropic API key is required!"] :=
  startWithoutKeyFailsFast cfgNoKey (.error "unused") uiIdle rfl

/-- Claim C7 (modelled from the spec): when the analysis step succeeded the
item is finalized as completed with the summary populated, whatever the
notification outcome; the finalized item never depends on the notification
result, and a delivery failure is only logged. -/
theorem notificationFailureKeepsCompleted : ∀ (summary e : String)
    (ares : Except String String) (nres : Except String Unit),
    (pipelineFinalize (.ok summary) nres).1.status = "completed" ∧
    (pipelineFinalize (.ok summary) nres).1.analysis = some summary ∧
    (pipelineFinalize ares nres).1 = (pipelineFinalize ares (.ok ())).1 ∧
    (pipelineFinalize ares (.error e)).2 =
      ["notification delivery failed: " ++ e] :=
  fun _ _ _ _ => ⟨rfl, rfl, rfl, rfl⟩

/-- Claim C8 (modelled from the spec): a payload exactly at the configured
size limit is accepted; one byte over is rejected with a validation
error. -/
theorem sizeLimitBoundary : ∀ limit : Nat,
    validatePayloadSize limit limit = .ok () ∧
    validatePayloadSize limit (limit + 1) =
      .error (.validationError "payload exceeds the configured size limit") := by
  intro limit
  have h : ¬ (limit + 1 ≤ limit) := Nat.not_succ_le_self limit
  constructor
  · simp [validatePayloadSize]
  · simp [validatePayloadSize, h]

/-- Claim C10: the listener applies defaults at the event interface: a
payload with no status yields status completed, a payload with no source
yields source desktop_auto, and every other field is copied unchanged. -/
theorem processedEventDefaults : ∀ p : EventPayload,
    (p.status = none → (eventScreenshot p).status = "completed") ∧
    (p.source = none → (eventScreenshot p).source = some "desktop_auto") ∧
    (eventScreenshot p).id = p.id ∧
    (eventScreenshot p).name = p.name ∧
    (eventScreenshot p).size = p.size ∧
    (eventScreenshot p).fileType = p.fileType ∧
    (eventScreenshot p).timestamp = p.timestamp ∧
    (eventScreenshot p).analysis = p.analysis := by
  intro p
  refine ⟨?_, ?_, rfl, rfl, rfl, rfl, rfl, rfl⟩
  · intro h; simp [eventScreenshot, jsOrDefault, h]
  · intro h; simp [eventScreenshot, jsOrDefault, h]

/-- Witness for claim C10 at a concrete payload missing both optional
fields. -/
theorem processedEventDefaults_witness :
    (eventScreenshot eventP).status = "completed" ∧
    (eventScreenshot eventP).source = some "desktop_auto" :=
  ⟨(processedEventDefaults eventP).1 rfl, (processedEventDefaults eventP).2.1 rfl⟩

/-- Claim C9: the screenshot-processed handler is idempotent per id.  When
some item already carries the payload's id the handler returns the list
unchanged, and delivering the same event twice always yields the same list
as delivering it once. -/
theorem processedEventIdempotentPerId : ∀ (p : EventPayload)
    (l : List Screenshot),
    ((∃ s, s ∈ l ∧ s.id = p.id) → handleScreenshotProcessed p l = l) ∧
    handleScreenshotProcessed p (handleScreenshotProcessed p l) =
      handleScreenshotProcessed p l := by
  intro p l
  constructor
  · rintro ⟨s, hs, hsid⟩
    have hany : l.any (fun s => s.id == (eventScreenshot p).id) = true :=
      List.any_eq_true.mpr ⟨s, hs, by simp [eventScreenshot, hsid]⟩
    simp [handleScreenshotProcessed, hany]
  · by_cases hany : l.any (fun s => s.id == (eventScreenshot p).id) = true
    · simp [handleScreenshotProcessed, hany]
    · have hany2 : l.any (fun s => s.id == (eventScreenshot p).id) = false :=
        Bool.eq_false_iff.mpr hany
      simp [handleScreenshotProcessed, hany2, List.any_cons]

/-- Witness for claim C9: a concrete duplicate delivery is dropped and a
double delivery equals a single one. -/
theorem processedEventIdempotentPerId_witness :
    handleScreenshotProcessed eventP [eventScreenshot eventP] =
      [eventScreenshot eventP] ∧
    handleScreenshotProcessed eventP (handleScreenshotProcessed eventP []) =
      handleScreenshotProcessed eventP [] :=
  ⟨(processedEventIdempotentPerId eventP [eventScreenshot eventP]).1
      ⟨eventScreenshot eventP, by simp, rfl⟩,
   (processedEventIdempotentPerId eventP []).2⟩

/-- The backend is invoked exactly for the files whose mime type is an
image type, in order. -/
theorem runUpload_calls (nowAt : Nat → Nat) (isoAt : Nat → String)
    (resAt : Nat → ProcessingResponse) : ∀ (files : List FileInput) (i : Nat)
    (l : List Screenshot),
    (runUpload nowAt isoAt resAt files i l).2 =
      (files.filter isImageFile).map fun f => f.name := by
  intro files
  induction files with
  | nil => intro i l; rfl
  | cons f fs ih =>
    intro i l
    by_cases hf : isImageFile f <;> simp [runUpload, hf, ih]

/-- The history grows by exactly one item per accepted image file. -/
theorem runUpload_length (nowAt : Nat → Nat) (isoAt : Nat → String)
    (resAt : Nat → ProcessingResponse) : ∀ (files : List FileInput) (i : Nat)
    (l : List Screenshot),
    (runUpload nowAt isoAt resAt files i l).1.length =
      (files.filter isImageFile).length + l.length := by
  intro files
  induction files with
  | nil => intro i l; simp [runUpload]
  | cons f fs ih =>
    intro i l
    by_cases hf : isImageFile f
    · have := ih (i + 1) (uploadStep f i (nowAt i) (isoAt i) (resAt i) l)
      simp [runUpload, hf, this, length_uploadStep]
      omega
    · simp [runUpload, hf, ih]

/-- Claim C6: a submitted file whose mime type is not an image type is
rejected: the backend endpoint (modelled from the spec) answers a typed
validation error, the frontend guard never hands the file to the backend,
it never appears in the history, and the loop continues with the remaining
files exactly as if the rejected file were handled and ignored. -/
theorem nonImageFilesSkipped : ∀ (nowAt : Nat → Nat) (isoAt : Nat → String)
    (resAt : Nat → ProcessingResponse) (files : List FileInput) (i : Nat)
    (l : List Screenshot),
    (runUpload nowAt isoAt resAt files i l).2 =
      (files.filter isImageFile).map (fun f => f.name) ∧
    (runUpload nowAt isoAt resAt files i l).1.length =
      (files.filter isImageFile).length + l.length ∧
    (∀ f : FileInput, isImageFile f = false →
      runUpload nowAt isoAt resAt (f :: files) i l =
        runUpload nowAt isoAt resAt files (i + 1) l) ∧
    ∀ m : String, "image/".data.isPrefixOf m.data = false →
      validateMimeType m =
        .error (.validationError "mime type is not an image type") := by
  intro nowAt isoAt resAt files i l
  refine ⟨runUpload_calls nowAt isoAt resAt files i l,
    runUpload_length nowAt isoAt resAt files i l, ?_, ?_⟩
  · intro f hf
    simp [runUpload, hf]
  · intro m hm
    simp [validateMimeType, hm]

/-- Witness for claim C6 at a concrete non-image file. -/
theorem nonImageFilesSkipped_witness :
    isImageFile fileBad = false ∧
    runUpload (fun _ => 100) (fun _ => "iso") (fun _ => okRes)
        (fileBad :: []) 0 [] =
      runUpload (fun _ => 100) (fun _ => "iso") (fun _ => okRes) [] 1 [] ∧
    validateMimeType "text/plain" =
      .error (.validationError "mime type is not an image type") :=
  ⟨rfl,
   (nonImageFilesSkipped (fun _ => 100) (fun _ => "iso") (fun _ => okRes)
      [] 0 []).2.2.1 fileBad rfl,
   (nonImageFilesSkipped (fun _ => 100) (fun _ => "iso") (fun _ => okRes)
      [] 0 []).2.2.2 "text/plain" rfl⟩

/-- Any sequence of upload-path operations only ever puts new ids in front
of the existing ones: the old id sequence survives as a suffix. -/
theorem idsOf_applyOps_prepend : ∀ (ops : List Op) (l : List Screenshot),
    ∃ pre, idsOf (applyOps ops l) = pre ++ idsOf l := by
  intro ops
  induction ops with
  | nil => exact fun l => ⟨[], rfl⟩
  | cons o ops ih =>
    intro l
    obtain ⟨p2, h2⟩ := ih (applyOp o l)
    cases o with
    | upload f i now iso =>
      refine ⟨p2 ++ [mkId now i], ?_⟩
      have h0 : idsOf (applyOp (.upload f i now iso) l) = mkId now i :: idsOf l := rfl
      calc idsOf (applyOps (Op.upload f i now iso :: ops) l)
          = p2 ++ idsOf (applyOp (.upload f i now iso) l) := h2
        _ = p2 ++ (mkId now i :: idsOf l) := by rw [h0]
        _ = (p2 ++ [mkId now i]) ++ idsOf l := by simp
    | finalize u res =>
      refine ⟨p2, ?_⟩
      have h0 : idsOf (applyOp (.finalize u res) l) = idsOf l :=
        idsOf_finalizeScreenshot u res l
      calc idsOf (applyOps (Op.finalize u res :: ops) l)
          = p2 ++ idsOf (applyOp (.finalize u res) l) := h2
        _ = p2 ++ idsOf l := by rw [h0]

/-- Claim C2: the history is ordered by append time, most recent first.
Whatever operations run between and after the two appends, the id of the
later-appended item B stays strictly in front of the id of the
earlier-appended item A, and finalization rewrites items in place - it
never changes the id sequence. -/
theorem historyOrderedByAppendTime : ∀ (l : List Screenshot)
    (fa : FileInput) (ia ta : Nat) (isoa : String)
    (fb : FileInput) (ib tb : Nat) (isob : String)
    (ops1 ops2 : List Op),
    List.Sublist [mkId tb ib, mkId ta ia]
      (idsOf (applyOps ops2 (applyOp (.upload fb ib tb isob)
        (applyOps ops1 (applyOp (.upload fa ia ta isoa) l))))) ∧
    ∀ (u : String) (res : ProcessingResponse) (l2 : List Screenshot),
      idsOf (finalizeScreenshot u res l2) = idsOf l2 := by
  intro l fa ia ta isoa fb ib tb isob ops1 ops2
  refine ⟨?_, fun u res l2 => idsOf_finalizeScreenshot u res l2⟩
  obtain ⟨p1, h1⟩ := idsOf_applyOps_prepend ops1 (applyOp (.upload fa ia ta isoa) l)
  obtain ⟨p2, h2⟩ := idsOf_applyOps_prepend ops2
    (applyOp (.upload fb ib tb isob)
      (applyOps ops1 (applyOp (.upload fa ia ta isoa) l)))
  have e1 : idsOf (applyOp (.upload fa ia ta isoa) l) = mkId ta ia :: idsOf l := rfl
  have e2 : idsOf (applyOp (.upload fb ib tb isob)
      (applyOps ops1 (applyOp (.upload fa ia ta isoa) l))) =
      mkId tb ib :: (p1 ++ (mkId ta ia :: idsOf l)) := by
    show mkId tb ib :: idsOf (applyOps ops1 (applyOp (.upload fa ia ta isoa) l)) = _
    rw [h1, e1]
  rw [h2, e2]
  have hA : List.Sublist [mkId ta ia] (p1 ++ (mkId ta ia :: idsOf l)) := by
    have hmem : List.Sublist [mkId ta ia] (mkId ta ia :: idsOf l) :=
      List.singleton_sublist.mpr (List.mem_cons_self _ _)
    exact hmem.trans (List.sublist_append_right p1 _)
  have hBA : List.Sublist [mkId tb ib, mkId ta ia]
      (mkId tb ib :: (p1 ++ (mkId ta ia :: idsOf l))) :=
    List.Sublist.cons₂ _ hA
  exact hBA.trans (List.sublist_append_right p2 _)

/-- Enlarging the pool of responses preserves analysis consistency. -/
theorem analysisConsistent_mono {rs rs2 : List ProcessingResponse}
    {s : Screenshot} (hsub : ∀ r, r ∈ rs → r ∈ rs2)
    (h : analysisConsistent rs s) : analysisConsistent rs2 s := by
  obtain ⟨h1, h2, h3⟩ := h
  refine ⟨h1, ?_, ?_⟩
  · intro hc
    obtain ⟨r, hr, hok, ha⟩ := h2 hc
    exact ⟨r, hsub r hr, hok, ha⟩
  · intro he
    obtain ⟨r, hr, hok, ha⟩ := h3 he
    exact ⟨r, hsub r hr, hok, ha⟩

/-- One operation preserves analysis consistency: the append carries no
analysis text, the finalize writes status and analysis together from one
response. -/
theorem analysisConsistent_applyOp {rs : List ProcessingResponse}
    {l : List Screenshot} (o : Op)
    (hl : ∀ s, s ∈ l → analysisConsistent rs s) :
    ∀ s, s ∈ applyOp o l → analysisConsistent (rs ++ resultsOf [o]) s := by
  cases o with
  | upload f i now iso =>
    intro s hs
    rcases List.mem_cons.mp hs with h | h
    · subst h
      refine ⟨fun _ => rfl, ?_, ?_⟩
      · intro hc
        rw [show (mkScreenshot f i now iso).status = "processing" from rfl] at hc
        exact absurd hc (by decide)
      · intro he
        rw [show (mkScreenshot f i now iso).status = "processing" from rfl] at he
        exact absurd he (by decide)
    · exact analysisConsistent_mono (fun r hr => List.mem_append_left _ hr) (hl s h)
  | finalize u res =>
    intro s hs
    simp only [applyOp, finalizeScreenshot] at hs
    rcases List.mem_map.mp hs with ⟨s0, hs0, hmap⟩
    have hresmem : res ∈ rs ++ resultsOf [Op.finalize u res] := by
      simp [resultsOf]
    by_cases h : s0.id = u
    · rw [if_pos h] at hmap
      subst hmap
      cases hres : res.success with
      | true =>
        refine ⟨?_, ?_, ?_⟩
        · intro hp
          rw [show (finalizeItem res s0).status = "completed" from by
            simp [finalizeItem, hres]] at hp
          exact absurd hp (by decide)
        · intro _
          exact ⟨res, hresmem, hres, by simp [finalizeItem, hres]⟩
        · intro he
          rw [show (finalizeItem res s0).status = "completed" from by
            simp [finalizeItem, hres]] at he
          exact absurd he (by decide)
      | false =>
        refine ⟨?_, ?_, ?_⟩
        · intro hp
          rw [show (finalizeItem res s0).status = "error" from by
            simp [finalizeItem, hres]] at hp
          exact absurd hp (by decide)
        · intro hc
          rw [show (finalizeItem res s0).status = "error" from by
            simp [finalizeItem, hres]] at hc
          exact absurd hc (by decide)
        · intro _
          exact ⟨res, hresmem, hres, by simp [finalizeItem, hres]⟩
    · rw [if_neg h] at hmap
      subst hmap
      exact analysisConsistent_mono (fun r hr => List.mem_append_left _ hr)
        (hl s0 hs0)

/-- A whole operation sequence preserves analysis consistency, collecting
the responses it consumed. -/
theorem analysisConsistent_applyOps : ∀ (ops : List Op)
    (rs : List ProcessingResponse) (l : List Screenshot),
    (∀ s, s ∈ l → analysisConsistent rs s) →
    ∀ s, s ∈ applyOps ops l → analysisConsistent (rs ++ resultsOf ops) s := by
  intro ops
  induction ops with
  | nil =>
    intro rs l hl s hs
    exact analysisConsistent_mono (fun r hr => List.mem_append_left _ hr)
      (hl s hs)
  | cons o ops ih =>
    intro rs l hl s hs
    have h1 : ∀ s2, s2 ∈ applyOp o l →
        analysisConsistent (rs ++ resultsOf [o]) s2 :=
      analysisConsistent_applyOp o hl
    have h2 := ih (rs ++ resultsOf [o]) (applyOp o l) h1 s hs
    refine analysisConsistent_mono ?_ h2
    intro r hr
    have hsplit : resultsOf (o :: ops) = resultsOf [o] ++ resultsOf ops := by
      cases o <;> simp [resultsOf]
    rw [hsplit]
    simpa [List.append_assoc] using hr

/-- Claim C4: in every history reachable by the upload path, analysis text
and status agree: a processing item carries no analysis, a completed item
carries the summary of a successful backend response, and an error item
carries the error detail of a failed backend response - never the other way
round. -/
theorem analysisTextMatchesStatus : ∀ (ops : List Op) (s : Screenshot),
    s ∈ applyOps ops [] →
    (s.status = "processing" → s.analysis = none) ∧
    (s.status = "completed" →
      ∃ r, r ∈ resultsOf ops ∧ r.success = true ∧ s.analysis = r.summary) ∧
    (s.status = "error" →
      ∃ r, r ∈ resultsOf ops ∧ r.success = false ∧ s.analysis = r.error) := by
  intro ops s hs
  have h := analysisConsistent_applyOps ops [] []
    (fun s2 hs2 => absurd hs2 (List.not_mem_nil s2)) s hs
  simpa [analysisConsistent] using h

/-- Witness for claim C4 on a concrete trace: the completed item of c4ops
carries exactly the successful response's summary. -/
theorem analysisTextMatchesStatus_witness :
    ∃ r, r ∈ resultsOf c4ops ∧ r.success = true ∧
      (finalizeItem okRes (mkScreenshot fileA 0 100 "iso1")).analysis =
        r.summary :=
  (analysisTextMatchesStatus c4ops
    (finalizeItem okRes (mkScreenshot fileA 0 100 "iso1")) (by decide)).2.1
    (by decide)

end ScreenshotStudio
